import Mathlib

/-!
Verification of the discount-decider TVM engine.

Shallow embedding of the time-value-of-money routines of the repository
`discount-decider-with-python` and proofs about them.

Conventions of the embedding:

* Python floats are idealized as elements of an arbitrary `LinearOrderedField α`
  (instantiated at `ℝ` in theorems about real arithmetic and at `ℚ` in concrete
  witnesses, where every branch is decidable and evaluable).
* A Python `raise` (explicit `ValueError` or an implicit `ZeroDivisionError`
  from a division whose denominator is zero) is modelled by returning
  `Except.error` with the matching classification; ordinary returns are
  `Except.ok`.
* Integer exponents on floats (`x ** k` with `k : int`, possibly negative) are
  modelled with `zpow`, which agrees with exact float semantics
  (`x ** (-k) = 1 / x ** k`); nonnegative exponents use monoid `pow`.
* `math.log` and the real power `x ** (1/12)` are not computable functions of
  the field, so the definitions that use them take the transcendental function
  as an explicit argument (`ln`, `rt12`); theorems instantiate these with
  `Real.log` and `fun x => x ^ ((1:ℝ)/12)`.
-/

namespace DiscountDecider

/-- Failure classification for the engine: implicit float division by zero,
degenerate inputs (explicit `ValueError` on an impossible combination), a
logarithm of a non-positive quantity, a zero Newton derivative, a
Newton iterate outside the declared bounds (carrying the offending value and
the 1-based iteration index), and exhaustion of the iteration budget. -/
inductive Err (α : Type) where
  | div0 : Err α
  | degenerate : Err α
  | invalidDomain : Err α
  | singularDerivative : Err α
  | outOfBounds : α → ℕ → Err α
  | nonConvergence : Err α
  deriving Repr, DecidableEq

variable {α : Type} [LinearOrderedField α]

/-! ## discount-decider.py -/

/-- `calcular_parcela(P, r, n)` from `discount-decider.py`: amortized-loan
installment.  `if r == 0: return P / n` (Python raises `ZeroDivisionError`
when `n = 0`); otherwise `P * (r * (1+r)**n) / ((1+r)**n - 1)` (Python raises
`ZeroDivisionError` when the denominator is zero). -/
def calcular_parcela (P r : α) (n : ℕ) : Except (Err α) α :=
  if r = 0 then
    if (n : α) = 0 then .error .div0 else .ok (P / (n : α))
  else
    if (1 + r) ^ n - 1 = 0 then .error .div0
    else .ok (P * (r * (1 + r) ^ n) / ((1 + r) ^ n - 1))

/-- `calcular_montante_final(P, r, n)` from `discount-decider.py`:
compound growth of a lump sum, `P * (1 + r) ** n`. -/
def calcular_montante_final (P r : α) (n : ℕ) : α :=
  P * (1 + r) ^ n

/-- From `main` of `discount-decider.py`: the discounted installment,
`parcela_antecipada = max(parcela_normal - monthly_discount, 0)`. -/
def parcela_antecipada (parcela_normal monthly_discount : α) : α :=
  max (parcela_normal - monthly_discount) 0

/-- From `main` of `discount-decider.py`: the final saved amount under the
early-payoff option, `calcular_montante_final(saved_amount -
monthly_discount * loan_months, saved_interest_rate, loan_months)`. -/
def montante_final_antecipado (saved_amount monthly_discount saved_interest_rate : α)
    (loan_months : ℕ) : α :=
  calcular_montante_final (saved_amount - monthly_discount * (loan_months : α))
    saved_interest_rate loan_months

/-- Modelled from the spec: the alternative cash-flow model that the spec's
open question contrasts with the script, in which the monthly discount is a
compounding monthly withdrawal from the saved balance (each month the balance
earns interest and then the discount is withdrawn).  The script does not do
this; the definition exists only to separate the two models. -/
def montante_com_retirada_mensal (saved_amount monthly_discount saved_interest_rate : α) :
    ℕ → α
  | 0 => saved_amount
  | m + 1 =>
      montante_com_retirada_mensal saved_amount monthly_discount saved_interest_rate m
        * (1 + saved_interest_rate) - monthly_discount

/-! ## src/financial_calculator.py -/

/-- `calcular_tae(taxa_mensal)` from `financial_calculator.py`:
annual equivalent rate, `(1 + taxa_mensal) ** 12 - 1`. -/
def calcular_tae (taxa_mensal : α) : α :=
  (1 + taxa_mensal) ^ (12 : ℕ) - 1

/-- `calcular_valor_presente(pmt, taxa_mensal, num_parcelas)` from
`financial_calculator.py`: present value of an annuity.
`if taxa_mensal == 0: pmt * num_parcelas`; otherwise
`pmt * (1 - (1 + taxa_mensal) ** -num_parcelas) / taxa_mensal` (Python raises
`ZeroDivisionError` when `1 + taxa_mensal = 0` and the exponent is negative,
i.e. `num_parcelas > 0`). -/
def calcular_valor_presente (pmt taxa_mensal : α) (num_parcelas : ℕ) : Except (Err α) α :=
  if taxa_mensal = 0 then .ok (pmt * (num_parcelas : α))
  else if 1 + taxa_mensal = 0 ∧ num_parcelas ≠ 0 then .error .div0
  else .ok (pmt * (1 - (1 + taxa_mensal) ^ (-(num_parcelas : ℤ))) / taxa_mensal)

/-- The loop body of `calcular_taxa_mensal` from `financial_calculator.py`,
with the remaining iteration budget as fuel.  Each iteration computes
`f = pv - calcular_valor_presente(pmt, r, num_parcelas)` (a raised
`ZeroDivisionError` propagates), then the closed-form derivative `df`
(the special value `-pmt * n * (n + 1) / 2` when `r == 0`; when `r != 0` the
quotient-rule expression, whose float powers `(1+r) ** (-n)` and
`(1+r) ** (-n-1)` raise `ZeroDivisionError` exactly when `1 + r = 0`), fails
with the singular-derivative error when `df == 0`, takes the Newton step
`r_new = r - f / df`, returns `r_new` when `|r_new - r| < tolerancia`, and
otherwise continues from `r_new`.  There is no bounds check anywhere.
Exhausted fuel is the final `ValueError` (non-convergence). -/
def calcular_taxa_mensal_go (pv pmt : α) (num_parcelas : ℕ) (tolerancia : α) :
    ℕ → α → Except (Err α) α
  | 0, _ => .error .nonConvergence
  | fuel + 1, r =>
    match calcular_valor_presente pmt r num_parcelas with
    | .error e => .error e
    | .ok pvr =>
      let f := pv - pvr
      let dfE : Except (Err α) α :=
        if r = 0 then
          .ok (-(pmt * (num_parcelas : α) * ((num_parcelas : α) + 1) / 2))
        else if 1 + r = 0 then .error .div0
        else
          .ok (pmt * ((1 - (1 + r) ^ (-(num_parcelas : ℤ))) / r ^ 2) -
            pmt * ((num_parcelas : α) * (1 + r) ^ (-(num_parcelas : ℤ) - 1)) / r)
      match dfE with
      | .error e => .error e
      | .ok df =>
        if df = 0 then .error .singularDerivative
        else
          let r_new := r - f / df
          if |r_new - r| < tolerancia then .ok r_new
          else calcular_taxa_mensal_go pv pmt num_parcelas tolerancia fuel r_new

/-- `calcular_taxa_mensal(pv, pmt, num_parcelas, taxa_inicial, tolerancia,
max_iter)` from `financial_calculator.py`: Newton-Raphson for the monthly
rate, iterating `calcular_taxa_mensal_go` from `taxa_inicial` for at most
`max_iter` iterations. -/
def calcular_taxa_mensal (pv pmt : α) (num_parcelas : ℕ)
    (taxa_inicial tolerancia : α) (max_iter : ℕ) : Except (Err α) α :=
  calcular_taxa_mensal_go pv pmt num_parcelas tolerancia max_iter taxa_inicial

/-! ## src/retirement_calculator.py -/

/-- `resolver_n(fv, pmt, pv, i)` from `retirement_calculator.py`, with
`math.log` abstracted as the argument `ln` (theorems instantiate
`ln := Real.log`).  When `i == 0`: both `pv` and `pmt` zero is the explicit
`ValueError`; `pmt == 0` returns `fv / pv`; otherwise `(fv - pv) / pmt`.
When `i != 0`: a non-positive numerator `fv*i + pmt` or denominator
`pv*i + pmt` is the explicit `ValueError`; then `math.log(1 + i)` raises a
domain `ValueError` when `1 + i <= 0`; otherwise the result is
`log(numerator / denominator) / log(1 + i)`. -/
def resolver_n (ln : α → α) (fv pmt pv i : α) : Except (Err α) α :=
  if i = 0 then
    if pmt = 0 then
      if pv = 0 then .error .degenerate else .ok (fv / pv)
    else .ok ((fv - pv) / pmt)
  else
    let numerator := fv * i + pmt
    let denominator := pv * i + pmt
    if numerator ≤ 0 ∨ denominator ≤ 0 then .error .invalidDomain
    else if 1 + i ≤ 0 then .error .invalidDomain
    else .ok (ln (numerator / denominator) / ln (1 + i))

/-- `calcular_fv_com_aportes(pmt, taxa_anual, anos)` from
`retirement_calculator.py`: future value of an annuity.  The annual rate in
percent is converted to `taxa_mensal = taxa_anual / 100 / 12` and the horizon
to `n_meses = int(anos * 12)`; Python's `int()` truncation is modelled with
`Int.floor`, which agrees with it on the nonnegative `anos` the callers
validate.  `if taxa_mensal == 0: pmt * n_meses`; otherwise
`pmt * ((1 + taxa_mensal) ** n_meses - 1) / taxa_mensal`.  No branch can
raise, so the function is total: with `n_meses = 0` it returns `0`. -/
def calcular_fv_com_aportes [FloorRing α] (pmt taxa_anual anos : α) : α :=
  let taxa_mensal := taxa_anual / 100 / 12
  let n_meses : ℤ := ⌊anos * 12⌋
  if taxa_mensal = 0 then pmt * (n_meses : α)
  else pmt * ((1 + taxa_mensal) ^ n_meses - 1) / taxa_mensal

/-- `resolver_pmt(fv, pv, i, n)` from `retirement_calculator.py`.
When `i == 0`: `n == 0` is the explicit `ValueError`; otherwise
`(fv - pv) / n`.  When `i != 0`: `denominador = ((1+i)**n - 1) / i`, with an
explicit `ZeroDivisionError` when it is zero; otherwise
`(fv - pv * (1+i)**n) / denominador`. -/
def resolver_pmt (fv pv i : α) (n : ℕ) : Except (Err α) α :=
  if i = 0 then
    if n = 0 then .error .degenerate
    else .ok ((fv - pv) / (n : α))
  else
    let denominador := ((1 + i) ^ n - 1) / i
    if denominador = 0 then .error .div0
    else .ok ((fv - pv * (1 + i) ^ n) / denominador)

/-- The loop body of `resolver_i_tradicional` from `retirement_calculator.py`,
with the remaining iteration budget as fuel and the 1-based iteration index
`iteracao` carried along.  The two float-exception paths are embedded by
their exact observable outcome:

* `i = 0`: both `try` blocks catch a `ZeroDivisionError` and set
  `fv_calculado = inf` and `df = inf`, so `i_new = i - inf/inf = nan`; every
  later comparison on `nan` is false, so the loop silently runs to exhaustion
  and ends in the non-convergence `ValueError`.
* `i = -1` with `n = 0`: `fv_calculado = pv` is finite, but
  `(1 + i) ** (n - 1) = 0.0 ** -1` raises inside the derivative `try`, so
  `df = inf` and `i_new = i - f/inf = -1`, which fails the `i_new < 0` bounds
  check: the out-of-bounds `ValueError` carrying `i_new = -1` and the
  iteration index.

On the ordinary path `f(i) = pv*(1+i)**n + pmt*((1+i)**n - 1)/i - fv` and the
closed-form `df = term1 + term2` are computed, a zero `df` is the explicit
`ZeroDivisionError`, the Newton step is `i_new = i - f / df`, an `i_new`
outside `[0, 1]` is the out-of-bounds `ValueError` carrying `i_new` and the
iteration index (checked before the convergence test), `|i_new - i| <
tolerancia` returns `i_new`, and otherwise the loop continues from `i_new`. -/
def resolver_i_go (fv pv pmt : α) (n : ℕ) (tolerancia : α) :
    ℕ → ℕ → α → Except (Err α) α
  | 0, _, _ => .error .nonConvergence
  | fuel + 1, iteracao, i =>
    if i = 0 then .error .nonConvergence
    else if i = -1 ∧ n = 0 then .error (.outOfBounds (-1) iteracao)
    else
      let z := (1 + i) ^ n
      let f := (pv * z + pmt * (z - 1) / i) - fv
      let term1 := pv * (n : α) * (1 + i) ^ ((n : ℤ) - 1)
      let term2 := pmt * ((n : α) * (1 + i) ^ ((n : ℤ) - 1) * i - (z - 1)) / i ^ 2
      let df := term1 + term2
      if df = 0 then .error .singularDerivative
      else
        let i_new := i - f / df
        if i_new < 0 ∨ i_new > 1 then .error (.outOfBounds i_new iteracao)
        else if |i_new - i| < tolerancia then .ok i_new
        else resolver_i_go fv pv pmt n tolerancia fuel (iteracao + 1) i_new

/-- `resolver_i_tradicional(fv, pv, pmt, n, taxa_inicial, tolerancia,
max_iter)` from `retirement_calculator.py`: Newton-Raphson for the periodic
rate with declared bounds `[minimo_i, maximo_i] = [0, 1]`, iterating
`resolver_i_go` from `taxa_inicial` for at most `max_iter` iterations. -/
def resolver_i_tradicional (fv pv pmt : α) (n : ℕ)
    (taxa_inicial tolerancia : α) (max_iter : ℕ) : Except (Err α) α :=
  resolver_i_go fv pv pmt n tolerancia max_iter 1 taxa_inicial

/-! ## src/long-term-investment.py -/

/-- `monthly_rate(annual_rate)` from `long-term-investment.py`:
`(1 + annual_rate) ** (1 / 12) - 1`, with the real 12th-root function
`x ↦ x ^ (1/12)` abstracted as the argument `rt12` (theorems instantiate
`rt12 := fun x => x ^ ((1:ℝ)/12)`). -/
def monthly_rate (rt12 : α → α) (annual_rate : α) : α :=
  rt12 (1 + annual_rate) - 1

/-- `final_balance_50_months(annual_rate, extra_monthly_deposit, rent_deposit,
initial_capital, months)` from `long-term-investment.py`: starting from
`initial_capital`, each month multiplies the balance by `1 + monthly_rate`
and adds `rent_deposit + extra_monthly_deposit`. -/
def final_balance_50_months (rt12 : α → α)
    (annual_rate extra_monthly_deposit rent_deposit initial_capital : α) :
    ℕ → α
  | 0 => initial_capital
  | m + 1 =>
      final_balance_50_months rt12 annual_rate extra_monthly_deposit rent_deposit
          initial_capital m * (1 + monthly_rate rt12 annual_rate)
        + (rent_deposit + extra_monthly_deposit)

/-- The halving loop of `solve_required_deposit` from
`long-term-investment.py`, extracted over an arbitrary evaluation function
`f` and target: each iteration takes `mid = (left + right) / 2` and shrinks
to `(left, mid)` when `f mid >= target` and to `(mid, right)` otherwise.
There is no bracket validation of any kind. -/
def bisect_loop (f : α → α) (target : α) : ℕ → α × α → α × α
  | 0, lr => lr
  | k + 1, (left, right) =>
      let mid := (left + right) / 2
      if target ≤ f mid then bisect_loop f target k (left, mid)
      else bisect_loop f target k (mid, right)

/-- `solve_required_deposit(annual_rate, desired_monthly_interest,
rent_deposit, initial_capital, months)` from `long-term-investment.py`:
`needed_capital = desired_monthly_interest / monthly_rate(annual_rate)`, then
100 halvings of the bracket `[0, 20000]` against
`final_balance_50_months(annual_rate, mid, ...) >= needed_capital`, returning
the midpoint of the final interval. -/
def solve_required_deposit (rt12 : α → α)
    (annual_rate desired_monthly_interest rent_deposit initial_capital : α)
    (months : ℕ) : α :=
  let i_mensal := monthly_rate rt12 annual_rate
  let needed_capital := desired_monthly_interest / i_mensal
  let lr := bisect_loop
    (fun mid => final_balance_50_months rt12 annual_rate mid rent_deposit
      initial_capital months)
    needed_capital 100 ((0 : α), 20000)
  (lr.1 + lr.2) / 2

/-! ## Helper lemmas -/

/-- With a rate above `-1`, nonzero, and at least one period, the annuity
denominator `(1+r)^n - 1` is nonzero. -/
theorem annuity_denom_ne_zero {r : α} (hr : -1 < r) (hr0 : r ≠ 0) {n : ℕ}
    (hn : 0 < n) : (1 + r) ^ n - 1 ≠ 0 := by
  rcases lt_or_gt_of_ne hr0 with hneg | hpos
  · have h0 : (0 : α) ≤ 1 + r := by linarith
    have h1 : 1 + r < 1 := by linarith
    have := pow_lt_one₀ h0 h1 hn.ne'
    intro h
    nlinarith
  · have h1 : (1 : α) < 1 + r := by linarith
    have := one_lt_pow₀ h1 hn.ne'
    intro h
    nlinarith

/-- Branch lemma: `calcular_parcela` on a nonzero rate with nonzero annuity
denominator returns the closed form. -/
theorem calcular_parcela_ok {P r : α} {n : ℕ} (hr0 : r ≠ 0)
    (hd : (1 + r) ^ n - 1 ≠ 0) :
    calcular_parcela P r n = .ok (P * (r * (1 + r) ^ n) / ((1 + r) ^ n - 1)) := by
  rw [calcular_parcela, if_neg hr0, if_neg hd]

/-- Branch lemma: `calcular_valor_presente` on a nonzero rate with
`1 + r ≠ 0` returns the closed form. -/
theorem calcular_valor_presente_ok {pmt r : α} {n : ℕ} (hr0 : r ≠ 0)
    (h1r : 1 + r ≠ 0) :
    calcular_valor_presente pmt r n =
      .ok (pmt * (1 - (1 + r) ^ (-(n : ℤ))) / r) := by
  rw [calcular_valor_presente, if_neg hr0, if_neg (by simp [h1r])]

/-! ## C1 — the payment formula -/

/-- C1: for every principal `pv ≥ 0`, periodic rate `r > -1`, and number of
periods `n > 0`, `calcular_parcela` returns `pv / n` when `r = 0` and
`pv * r * (1+r)^n / ((1+r)^n - 1)` when `r ≠ 0`. -/
theorem C1_payment_formula (P r : α) (n : ℕ) (hP : 0 ≤ P) (hr : -1 < r)
    (hn : 0 < n) :
    (r = 0 → calcular_parcela P r n = .ok (P / (n : α))) ∧
    (r ≠ 0 →
      calcular_parcela P r n = .ok (P * r * (1 + r) ^ n / ((1 + r) ^ n - 1))) := by
  constructor
  · intro h0
    have hcast : ((n : α)) ≠ 0 := Nat.cast_ne_zero.mpr hn.ne'
    rw [calcular_parcela, if_pos h0, if_neg hcast]
  · intro hr0
    rw [calcular_parcela_ok hr0 (annuity_denom_ne_zero hr hr0 hn)]
    congr 1
    ring

/-- Witness for C1 at `P = 6`, `r = 1/2`, `n = 2` over `ℚ`. -/
theorem C1_payment_formula_witness :
    (((1 : ℚ)/2) = 0 → calcular_parcela (6 : ℚ) (1/2) 2 = .ok (6 / ((2 : ℕ) : ℚ))) ∧
    (((1 : ℚ)/2) ≠ 0 →
      calcular_parcela (6 : ℚ) (1/2) 2 =
        .ok (6 * (1/2) * (1 + 1/2) ^ 2 / ((1 + 1/2) ^ 2 - 1))) :=
  C1_payment_formula 6 (1/2) 2 (by norm_num) (by norm_num) (by norm_num)

/-! ## C2 — payment and present value are mutual inverses -/

/-- C2: over the reals, for every `pmt`, `pv`, rate `r > 0` and period count
`n > 0`, the annuity formulas are mutual inverses:
`calcular_parcela (calcular_valor_presente pmt r n) r n = pmt` and
`calcular_valor_presente (calcular_parcela pv r n) r n = pv` (stated with
`Except.bind` since both embedded functions are fallible; on these inputs
both succeed). -/
theorem C2_roundtrip (pmt pv r : ℝ) (n : ℕ) (hr : 0 < r) (hn : 0 < n) :
    (calcular_valor_presente pmt r n).bind (fun x => calcular_parcela x r n) =
      .ok pmt ∧
    (calcular_parcela pv r n).bind (fun x => calcular_valor_presente x r n) =
      .ok pv := by
  have h1r : (0 : ℝ) < 1 + r := by linarith
  have hz1 : (1 : ℝ) < (1 + r) ^ n := one_lt_pow₀ (by linarith) hn.ne'
  have hz0 : ((1 + r) : ℝ) ^ n ≠ 0 := by positivity
  have hzm1 : ((1 + r) : ℝ) ^ n - 1 ≠ 0 := by nlinarith
  have hneg : ((1 + r) : ℝ) ^ (-(n : ℤ)) = ((1 + r) ^ n)⁻¹ := by
    rw [zpow_neg, zpow_natCast]
  constructor
  · rw [calcular_valor_presente_ok hr.ne' h1r.ne']
    show calcular_parcela _ r n = _
    rw [calcular_parcela_ok hr.ne' hzm1, hneg]
    congr 1
    field_simp
    ring
  · rw [calcular_parcela_ok hr.ne' hzm1]
    show calcular_valor_presente _ r n = _
    rw [calcular_valor_presente_ok hr.ne' h1r.ne', hneg]
    congr 1
    field_simp
    exact Or.inl (mul_comm _ _)

/-- Witness for C2 at `pmt = 5`, `pv = 7`, `r = 1`, `n = 2`. -/
theorem C2_roundtrip_witness :
    (calcular_valor_presente (5 : ℝ) 1 2).bind (fun x => calcular_parcela x 1 2) =
      .ok 5 ∧
    (calcular_parcela (7 : ℝ) 1 2).bind (fun x => calcular_valor_presente x 1 2) =
      .ok 7 :=
  C2_roundtrip 5 7 1 2 (by norm_num) (by norm_num)

/-! ## C3 — the period solver -/

/-- C3: `resolver_n` (with `ln := Real.log`) behaves as specified: at rate
zero it fails exactly when `pv = 0` and `pmt = 0`, returns `fv / pv` when
`pmt = 0` and `pv ≠ 0`, and returns `(fv - pv) / pmt` when `pmt ≠ 0`; at a
nonzero rate `i > -1` it fails exactly when `fv*i + pmt ≤ 0` or
`pv*i + pmt ≤ 0`, and otherwise returns
`log((fv*i + pmt) / (pv*i + pmt)) / log(1 + i)`. -/
theorem C3_resolver_n_spec (fv pmt pv i : ℝ) :
    (i = 0 → pmt = 0 → pv = 0 →
      resolver_n Real.log fv pmt pv i = .error .degenerate) ∧
    (i = 0 → pmt = 0 → pv ≠ 0 →
      resolver_n Real.log fv pmt pv i = .ok (fv / pv)) ∧
    (i = 0 → pmt ≠ 0 →
      resolver_n Real.log fv pmt pv i = .ok ((fv - pv) / pmt)) ∧
    (i ≠ 0 → -1 < i → (fv * i + pmt ≤ 0 ∨ pv * i + pmt ≤ 0) →
      resolver_n Real.log fv pmt pv i = .error .invalidDomain) ∧
    (i ≠ 0 → -1 < i → 0 < fv * i + pmt → 0 < pv * i + pmt →
      resolver_n Real.log fv pmt pv i =
        .ok (Real.log ((fv * i + pmt) / (pv * i + pmt)) / Real.log (1 + i))) := by
  refine ⟨?_, ?_, ?_, ?_, ?_⟩
  · intro h0 hpmt hpv
    rw [resolver_n, if_pos h0, if_pos hpmt, if_pos hpv]
  · intro h0 hpmt hpv
    rw [resolver_n, if_pos h0, if_pos hpmt, if_neg hpv]
  · intro h0 hpmt
    rw [resolver_n, if_pos h0, if_neg hpmt]
  · intro h0 hi hle
    rw [resolver_n, if_neg h0]
    simp only [if_pos hle]
  · intro h0 hi hnum hden
    rw [resolver_n, if_neg h0]
    simp only
    rw [if_neg (by push_neg; exact ⟨hnum, hden⟩), if_neg (by linarith)]

/-- Witness for C3, exercising the logarithmic branch at
`fv = 1, pmt = 1, pv = 1, i = 1`. -/
theorem C3_resolver_n_spec_witness :
    resolver_n Real.log 1 1 1 1 =
      .ok (Real.log ((1 * 1 + 1) / (1 * 1 + 1)) / Real.log (1 + 1)) :=
  (C3_resolver_n_spec 1 1 1 1).2.2.2.2 (by norm_num) (by norm_num)
    (by norm_num) (by norm_num)

/-! ## C8 — periodic/annual rate conversion -/

/-- C8: with 12 periods per year, `calcular_tae` (periodic-to-annual,
`(1+r)^12 - 1`) and `monthly_rate` (annual-to-periodic,
`(1+a)^(1/12) - 1`, instantiated with the real power function) are mutual
inverses on rates above `-1`. -/
theorem C8_rate_conversion_inverse (r a : ℝ) (hr : -1 < r) (ha : -1 < a) :
    monthly_rate (fun x => x ^ ((1 : ℝ)/12)) (calcular_tae r) = r ∧
    calcular_tae (monthly_rate (fun x => x ^ ((1 : ℝ)/12)) a) = a := by
  have hr0 : (0 : ℝ) ≤ 1 + r := by linarith
  have ha0 : (0 : ℝ) ≤ 1 + a := by linarith
  constructor
  · rw [monthly_rate, calcular_tae]
    have h1 : (1 : ℝ) + ((1 + r) ^ (12 : ℕ) - 1) = (1 + r) ^ (12 : ℕ) := by ring
    rw [h1, ← Real.rpow_natCast (1 + r) 12, ← Real.rpow_mul hr0]
    norm_num
  · rw [monthly_rate, calcular_tae]
    have h1 : (1 : ℝ) + ((1 + a) ^ ((1 : ℝ)/12) - 1) = (1 + a) ^ ((1 : ℝ)/12) := by
      ring
    rw [h1, ← Real.rpow_natCast ((1 + a) ^ ((1 : ℝ)/12)) 12, ← Real.rpow_mul ha0]
    norm_num

/-- Witness for C8 at `r = a = 1`. -/
theorem C8_rate_conversion_inverse_witness :
    monthly_rate (fun x : ℝ => x ^ ((1 : ℝ)/12)) (calcular_tae (1 : ℝ)) = 1 ∧
    calcular_tae (monthly_rate (fun x : ℝ => x ^ ((1 : ℝ)/12)) (1 : ℝ)) = 1 :=
  C8_rate_conversion_inverse 1 1 (by norm_num) (by norm_num)

/-! ## C9 — the early-payoff comparison model -/

/-- C9: in the early-payoff comparison of `discount-decider.py`, for every
discount `d ≥ 0` the discounted installment is `max(parcela_normal - d, 0)`
(so it is `parcela_normal - d` when `d ≤ parcela_normal` and clamps to `0`
when the discount exceeds the installment), and the saved amount under the
early-payoff option is `(saved_amount - d * months) * (1 + rate) ^ months`:
the principal is reduced by the flat amount `d * months` before compounding.
The final conjunct separates this from the spec's alternative
compounding-monthly-withdrawal model at a concrete input, showing the two
models genuinely differ. -/
theorem C9_early_payoff_model (p s d r : α) (m : ℕ) (hd : 0 ≤ d) :
    (d ≤ p → parcela_antecipada p d = p - d) ∧
    (p ≤ d → parcela_antecipada p d = 0) ∧
    montante_final_antecipado s d r m = (s - d * (m : α)) * (1 + r) ^ m ∧
    montante_final_antecipado (100 : α) 1 1 2 ≠
      montante_com_retirada_mensal (100 : α) 1 1 2 := by
  refine ⟨?_, ?_, ?_, ?_⟩
  · intro h
    rw [parcela_antecipada, max_eq_left (by linarith)]
  · intro h
    rw [parcela_antecipada, max_eq_right (by linarith)]
  · rw [montante_final_antecipado, calcular_montante_final]
  · rw [montante_final_antecipado, calcular_montante_final,
      montante_com_retirada_mensal, montante_com_retirada_mensal,
      montante_com_retirada_mensal]
    norm_num

/-- Witness for C9 at `p = 10`, `s = 100`, `d = 3`, `r = 1`, `m = 2` over
`ℚ`. -/
theorem C9_early_payoff_model_witness :
    ((3 : ℚ) ≤ 10 → parcela_antecipada (10 : ℚ) 3 = 10 - 3) ∧
    ((10 : ℚ) ≤ 3 → parcela_antecipada (10 : ℚ) 3 = 0) ∧
    montante_final_antecipado (100 : ℚ) 3 1 2 = (100 - 3 * ((2 : ℕ) : ℚ)) * (1 + 1) ^ 2 ∧
    montante_final_antecipado (100 : ℚ) 1 1 2 ≠
      montante_com_retirada_mensal (100 : ℚ) 1 1 2 :=
  C9_early_payoff_model 10 100 3 1 2 (by norm_num)

/-! ## Bisection lemmas -/

/-- Interval invariant of the halving loop: starting from an ordered pair,
after `k` halvings the interval is still ordered, has width `(r - l) / 2^k`,
and is contained in the starting interval. -/
theorem bisect_loop_box (f : α → α) (t : α) (k : ℕ) :
    ∀ l r : α, l ≤ r →
      (bisect_loop f t k (l, r)).1 ≤ (bisect_loop f t k (l, r)).2 ∧
      (bisect_loop f t k (l, r)).2 - (bisect_loop f t k (l, r)).1 =
        (r - l) / 2 ^ k ∧
      l ≤ (bisect_loop f t k (l, r)).1 ∧ (bisect_loop f t k (l, r)).2 ≤ r := by
  induction k with
  | zero =>
    intro l r h
    simp only [bisect_loop, pow_zero]
    exact ⟨h, by ring, le_refl _, le_refl _⟩
  | succ k ih =>
    intro l r h
    simp only [bisect_loop]
    have hgap : ((l + r) / 2 - l) = (r - l) / 2 := by ring
    have hgap2 : (r - (l + r) / 2) = (r - l) / 2 := by ring
    have hpow : ∀ y : α, y / 2 / 2 ^ k = y / 2 ^ (k + 1) := by
      intro y
      rw [pow_succ]
      ring
    split_ifs with hf
    · obtain ⟨h1, h2, h3, h4⟩ := ih l ((l + r) / 2) (by linarith)
      exact ⟨h1, by rw [h2, hgap, hpow], h3, by linarith⟩
    · obtain ⟨h1, h2, h3, h4⟩ := ih ((l + r) / 2) r (by linarith)
      exact ⟨h1, by rw [h2, hgap2, hpow], by linarith, h4⟩

/-- When the evaluation function stays strictly below the target on the
whole bracket (so the bracket does not straddle the target), every halving
moves the left end up and the loop drifts to the upper bound: after `k`
halvings the interval is `(r - (r - l)/2^k, r)`. -/
theorem bisect_loop_all_below (f : α → α) (t : α) (k : ℕ) :
    ∀ l r : α, l ≤ r → (∀ x, l ≤ x → x ≤ r → f x < t) →
      bisect_loop f t k (l, r) = (r - (r - l) / 2 ^ k, r) := by
  induction k with
  | zero =>
    intro l r h hf
    simp only [bisect_loop, pow_zero]
    rw [Prod.mk.injEq]
    exact ⟨by ring, rfl⟩
  | succ k ih =>
    intro l r h hf
    simp only [bisect_loop]
    have hm1 : l ≤ (l + r) / 2 := by linarith
    have hm2 : (l + r) / 2 ≤ r := by linarith
    rw [if_neg (not_le.mpr (hf _ hm1 hm2)),
      ih ((l + r) / 2) r hm2 (fun x hx hx2 => hf x (le_trans hm1 hx) hx2)]
    rw [Prod.mk.injEq]
    refine ⟨?_, rfl⟩
    rw [pow_succ]
    ring

/-- When the evaluation function is strictly increasing on the enclosing
interval and the current interval contains a root of `f x = t`, one halving
keeps the root; by induction the interval after `k` halvings still brackets
the root, with width `(r - l) / 2^k`. -/
theorem bisect_loop_keeps_root (f : α → α) (t lo hi x : α)
    (hmono : StrictMonoOn f (Set.Icc lo hi)) (hfx : f x = t) :
    ∀ (k : ℕ) (l r : α), lo ≤ l → r ≤ hi → l ≤ r → l ≤ x → x ≤ r →
      (bisect_loop f t k (l, r)).1 ≤ (bisect_loop f t k (l, r)).2 ∧
      (bisect_loop f t k (l, r)).2 - (bisect_loop f t k (l, r)).1 =
        (r - l) / 2 ^ k ∧
      (bisect_loop f t k (l, r)).1 ≤ x ∧ x ≤ (bisect_loop f t k (l, r)).2 := by
  intro k
  induction k with
  | zero =>
    intro l r hlo hhi h hx1 hx2
    simp only [bisect_loop, pow_zero]
    exact ⟨h, by ring, hx1, hx2⟩
  | succ k ih =>
    intro l r hlo hhi h hx1 hx2
    simp only [bisect_loop]
    have hm1 : l ≤ (l + r) / 2 := by linarith
    have hm2 : (l + r) / 2 ≤ r := by linarith
    have hmidmem : (l + r) / 2 ∈ Set.Icc lo hi :=
      ⟨le_trans hlo hm1, le_trans hm2 hhi⟩
    have hxmem : x ∈ Set.Icc lo hi := ⟨le_trans hlo hx1, le_trans hx2 hhi⟩
    have hpow : ∀ y : α, y / 2 / 2 ^ k = y / 2 ^ (k + 1) := by
      intro y
      rw [pow_succ]
      ring
    split_ifs with hfmid
    · have hxmid : x ≤ (l + r) / 2 :=
        (hmono.le_iff_le hxmem hmidmem).mp (by rw [hfx]; exact hfmid)
      obtain ⟨h1, h2, h3, h4⟩ := ih l ((l + r) / 2) hlo (le_trans hm2 hhi)
        (by linarith) hx1 hxmid
      refine ⟨h1, ?_, h3, h4⟩
      rw [h2, show ((l + r) / 2 - l) = (r - l) / 2 by ring, hpow]
    · have hmidx : (l + r) / 2 ≤ x :=
        le_of_lt ((hmono.lt_iff_lt hmidmem hxmem).mp
          (by rw [hfx]; exact not_le.mp hfmid))
      obtain ⟨h1, h2, h3, h4⟩ := ih ((l + r) / 2) r (le_trans hlo hm1) hhi
        (by linarith) hmidx hx2
      refine ⟨h1, ?_, h3, h4⟩
      rw [h2, show (r - (l + r) / 2) = (r - l) / 2 by ring, hpow]

/-! ## C5 — no bracket validation in the bisection solver -/

/-- C5 counterexample: the bracket `[0, 20000]` does not straddle the target
`50000` for the identity evaluation function (both bound evaluations are
below the target), yet the halving loop of `solve_required_deposit` runs its
100 iterations and produces an ordinary interval — it cannot fail, its
result type has no error case, and no evaluation of the bounds happens
before iterating. -/
theorem C5_counterexample :
    id (0 : ℚ) < 50000 ∧ id (20000 : ℚ) < 50000 ∧
    bisect_loop id 50000 100 ((0 : ℚ), 20000) =
      (20000 - 20000 / 2 ^ 100, 20000) := by
  refine ⟨by norm_num, by norm_num, ?_⟩
  have := bisect_loop_all_below (id : ℚ → ℚ) 50000 100 0 20000 (by norm_num)
    (fun x hx hx2 => by simpa using lt_of_le_of_lt hx2 (by norm_num))
  simpa using this

/-- C5 (amended): the bisection solver performs no bracket validation at
all.  When the evaluation function stays strictly below the target on the
whole bracket — a bracket that does not straddle the target — the loop still
performs its `k` halvings and returns the interval hugging the upper bound,
and the solver's returned midpoint is the endpoint-adjacent value
`r - (r - l) / 2^(k+1)`; there is no error path (the embedding is a total
function, as the Python performs no check and raises nothing). -/
theorem C5_no_bracket_check (f : α → α) (t l r : α) (k : ℕ) (h : l ≤ r)
    (hf : ∀ x, l ≤ x → x ≤ r → f x < t) :
    bisect_loop f t k (l, r) = (r - (r - l) / 2 ^ k, r) ∧
    ((bisect_loop f t k (l, r)).1 + (bisect_loop f t k (l, r)).2) / 2 =
      r - (r - l) / 2 ^ (k + 1) := by
  have hmain := bisect_loop_all_below f t k l r h hf
  refine ⟨hmain, ?_⟩
  rw [hmain, pow_succ]
  simp only
  ring

/-- Witness for C5's amended statement with the identity evaluation
function, target `50000`, bracket `[0, 20000]`, and `3` halvings over `ℚ`. -/
theorem C5_no_bracket_check_witness :
    bisect_loop id 50000 3 ((0 : ℚ), 20000) =
      (20000 - (20000 - 0) / 2 ^ 3, 20000) ∧
    ((bisect_loop id 50000 3 ((0 : ℚ), 20000)).1 +
      (bisect_loop id 50000 3 ((0 : ℚ), 20000)).2) / 2 =
      20000 - (20000 - 0) / 2 ^ (3 + 1) :=
  C5_no_bracket_check id 50000 0 20000 3 (by norm_num)
    (fun x hx hx2 => by simpa using lt_of_le_of_lt hx2 (by norm_num))

/-! ## C7 — bisection converges for strictly increasing functions -/

/-- C7: for an evaluation function strictly increasing on the bracket whose
bound values straddle the target, `k` halvings of the bisection loop land
within `(hi - lo) / 2^k` of the true root (over exact field arithmetic). -/
theorem C7_bisection_convergence (f : α → α) (t lo hi x : α) (k : ℕ)
    (hmono : StrictMonoOn f (Set.Icc lo hi)) (hx : x ∈ Set.Icc lo hi)
    (hfx : f x = t) (hlo : f lo ≤ t) (hhi : t ≤ f hi) (hlh : lo ≤ hi) :
    |((bisect_loop f t k (lo, hi)).1 + (bisect_loop f t k (lo, hi)).2) / 2 - x|
      ≤ (hi - lo) / 2 ^ k := by
  obtain ⟨h1, h2, h3, h4⟩ := bisect_loop_keeps_root f t lo hi x hmono hfx k
    lo hi le_rfl le_rfl hlh hx.1 hx.2
  have hw : (0 : α) ≤ (hi - lo) / 2 ^ k := by
    rw [← h2]
    linarith
  rw [abs_le]
  constructor <;> linarith

/-- Witness for C7 with the identity function on `[0, 1]`, target `1/2`,
root `1/2`, one halving, over `ℚ`. -/
theorem C7_bisection_convergence_witness :
    |((bisect_loop id (1/2) 1 ((0 : ℚ), 1)).1 +
      (bisect_loop id (1/2) 1 ((0 : ℚ), 1)).2) / 2 - 1/2| ≤ (1 - 0) / 2 ^ 1 :=
  C7_bisection_convergence id (1/2) 0 1 (1/2) 1
    (fun a _ b _ hab => hab) (Set.mem_Icc.mpr (by norm_num)) rfl
    (by norm_num) (by norm_num) (by norm_num)

/-! ## C10 — the deposit solver's interval invariant -/

/-- C10: for any annual rate whose derived monthly rate is positive and any
target, after `k ≤ 100` of the deposit solver's halvings the search interval
`[left, right]` satisfies `left ≤ right` and `right - left = 20000 / 2^k`
(with no straddling assumption on the bracket), and
`solve_required_deposit` always returns a value inside its initial bracket
`[0, 20000]`. -/
theorem C10_deposit_solver_invariant (rt12 : α → α)
    (annual desired rent init : α) (months k : ℕ)
    (hpos : 0 < monthly_rate rt12 annual) (hk : k ≤ 100) :
    ((bisect_loop
        (fun mid => final_balance_50_months rt12 annual mid rent init months)
        (desired / monthly_rate rt12 annual) k ((0 : α), 20000)).1 ≤
      (bisect_loop
        (fun mid => final_balance_50_months rt12 annual mid rent init months)
        (desired / monthly_rate rt12 annual) k ((0 : α), 20000)).2 ∧
     (bisect_loop
        (fun mid => final_balance_50_months rt12 annual mid rent init months)
        (desired / monthly_rate rt12 annual) k ((0 : α), 20000)).2 -
      (bisect_loop
        (fun mid => final_balance_50_months rt12 annual mid rent init months)
        (desired / monthly_rate rt12 annual) k ((0 : α), 20000)).1 =
        20000 / 2 ^ k) ∧
    solve_required_deposit rt12 annual desired rent init months ∈
      Set.Icc (0 : α) 20000 := by
  obtain ⟨h1, h2, h3, h4⟩ := bisect_loop_box
    (fun mid => final_balance_50_months rt12 annual mid rent init months)
    (desired / monthly_rate rt12 annual) k (0 : α) 20000 (by norm_num)
  obtain ⟨g1, g2, g3, g4⟩ := bisect_loop_box
    (fun mid => final_balance_50_months rt12 annual mid rent init months)
    (desired / monthly_rate rt12 annual) 100 (0 : α) 20000 (by norm_num)
  refine ⟨⟨h1, by rw [h2]; norm_num⟩, ?_⟩
  simp only [solve_required_deposit, Set.mem_Icc]
  constructor <;> [linarith; linarith]

/-- Witness for C10 over `ℚ` with `rt12 = id`, annual rate `1` (monthly rate
`1 > 0`), target interest `1`, no rent deposit, no initial capital, one
month, `k = 3` halvings. -/
theorem C10_deposit_solver_invariant_witness :
    ((bisect_loop
        (fun mid => final_balance_50_months id (1 : ℚ) mid 0 0 1)
        ((1 : ℚ) / monthly_rate id 1) 3 ((0 : ℚ), 20000)).1 ≤
      (bisect_loop
        (fun mid => final_balance_50_months id (1 : ℚ) mid 0 0 1)
        ((1 : ℚ) / monthly_rate id 1) 3 ((0 : ℚ), 20000)).2 ∧
     (bisect_loop
        (fun mid => final_balance_50_months id (1 : ℚ) mid 0 0 1)
        ((1 : ℚ) / monthly_rate id 1) 3 ((0 : ℚ), 20000)).2 -
      (bisect_loop
        (fun mid => final_balance_50_months id (1 : ℚ) mid 0 0 1)
        ((1 : ℚ) / monthly_rate id 1) 3 ((0 : ℚ), 20000)).1 =
        20000 / 2 ^ 3) ∧
    solve_required_deposit id (1 : ℚ) 1 0 0 1 ∈ Set.Icc (0 : ℚ) 20000 :=
  C10_deposit_solver_invariant id 1 1 0 0 1 3
    (by norm_num [monthly_rate]) (by norm_num)

/-! ## C4 — Newton-Raphson bounds -/

/-- Any `Except.ok` result of the `resolver_i_tradicional` loop lies inside
the declared bounds `[0, 1]`: the only `ok` exit point is guarded by the
bounds check, and an out-of-bounds iterate exits with the out-of-bounds
error carrying the value and iteration index. -/
theorem resolver_i_go_ok_bounds (fv pv pmt : α) (n : ℕ) (tol : α) :
    ∀ (fuel iteracao : ℕ) (i r : α),
      resolver_i_go fv pv pmt n tol fuel iteracao i = .ok r →
      0 ≤ r ∧ r ≤ 1 := by
  intro fuel
  induction fuel with
  | zero =>
    intro iteracao i r h
    simp [resolver_i_go] at h
  | succ fuel ih =>
    intro iteracao i r h
    simp only [resolver_i_go] at h
    split_ifs at h with h0 h1 hdf hb ht
    · push_neg at hb
      rw [Except.ok.injEq] at h
      subst h
      exact hb
    · exact ih _ _ _ h

/-- C4 (amended): the bounds contract holds for `resolver_i_tradicional`
(the retirement calculator's Newton-Raphson): whenever an iterate `i_new`
leaves `[0, 1]` that call fails with the out-of-bounds error carrying the
offending value and iteration index, and consequently every successfully
returned rate lies in `[0, 1]`.  It does not hold for every Newton-Raphson
rate solve in the engine: `calcular_taxa_mensal` has no bounds check (see
the counterexample, which returns a negative rate). -/
theorem C4_resolver_i_bounds (fv pv pmt taxa_inicial tolerancia : α)
    (n max_iter : ℕ) (r : α)
    (h : resolver_i_tradicional fv pv pmt n taxa_inicial tolerancia max_iter =
      .ok r) :
    0 ≤ r ∧ r ≤ 1 :=
  resolver_i_go_ok_bounds fv pv pmt n tolerancia max_iter 1 taxa_inicial r h

/-- Witness for C4's amended statement: a concrete converging run of
`resolver_i_tradicional` over `ℚ` (`fv = 3/2`, `pv = 1`, `pmt = 0`, `n = 1`,
guess `1/2`) returns `1/2`, which the theorem places in `[0, 1]`. -/
theorem C4_resolver_i_bounds_witness : (0 : ℚ) ≤ 1/2 ∧ (1/2 : ℚ) ≤ 1 :=
  C4_resolver_i_bounds (3/2) 1 0 (1/2) (1/1000000) 1 1000 (1/2)
    (by
      rw [resolver_i_tradicional, show (1000 : ℕ) = 999 + 1 from rfl,
        resolver_i_go]
      norm_num)

/-- C4 counterexample: `calcular_taxa_mensal` (a Newton-Raphson rate solve
of the engine, from `financial_calculator.py`) run on `pv = 3`, `pmt = 2`,
`n = 1` from initial guess `-1/3` computes the iterate `r_new = -1/3`,
which is outside `[0, 1]`; instead of failing with an out-of-bounds error
it converges and returns the out-of-bounds rate `-1/3 < 0`. -/
theorem C4_counterexample :
    calcular_taxa_mensal 3 2 1 (-(1 : ℚ)/3) (1/1000000) 1000 =
      .ok (-(1 : ℚ)/3) ∧ (-(1 : ℚ)/3) < 0 := by
  refine ⟨?_, by norm_num⟩
  rw [calcular_taxa_mensal, show (1000 : ℕ) = 999 + 1 from rfl,
    calcular_taxa_mensal_go,
    show calcular_valor_presente (2 : ℚ) (-(1 : ℚ)/3) 1 = .ok 3 by
      norm_num [calcular_valor_presente]]
  norm_num

/-! ## C6 — behaviour at zero periods -/

/-- C6 counterexample: the future-value-of-annuity operation
`calcular_fv_com_aportes` called with zero periods (`anos = 0`, hence
`n_meses = 0`) does not fail: it silently returns the value `0`. -/
theorem C6_counterexample : calcular_fv_com_aportes (100 : ℚ) 6 0 = 0 := by
  norm_num [calcular_fv_com_aportes]

/-- C6 (amended): of the annuity evaluations, `calcular_parcela` and
`resolver_pmt` do reject zero periods — for every input they fail at
`n = 0` (`calcular_parcela` with the division-by-zero error in either rate
branch, `resolver_pmt` with the explicit degenerate-input error at rate zero
and the division-by-zero error otherwise) — but `calcular_fv_com_aportes`
does not: at zero periods it silently returns `0` for every payment and
rate. -/
theorem C6_zero_periods [FloorRing α] (P r fv pv i pmt taxa_anual : α) :
    calcular_parcela P r 0 = .error .div0 ∧
    (i = 0 → resolver_pmt fv pv i 0 = .error .degenerate) ∧
    (i ≠ 0 → resolver_pmt fv pv i 0 = .error .div0) ∧
    calcular_fv_com_aportes pmt taxa_anual 0 = 0 := by
  refine ⟨?_, ?_, ?_, ?_⟩
  · by_cases h : r = 0 <;> simp [calcular_parcela, h]
  · intro h
    simp [resolver_pmt, h]
  · intro h
    simp [resolver_pmt, h]
  · by_cases h : taxa_anual / 100 / 12 = 0 <;>
      simp [calcular_fv_com_aportes, h]

/-- Witness for C6's amended statement over `ℚ` at `P = 5`, `r = 1/2`,
`fv = 7`, `pv = 2`, `i = 1/3`, `pmt = 100`, annual rate `6`. -/
theorem C6_zero_periods_witness :
    calcular_parcela (5 : ℚ) (1/2) 0 = .error .div0 ∧
    ((1/3 : ℚ) = 0 → resolver_pmt (7 : ℚ) 2 (1/3) 0 = .error .degenerate) ∧
    ((1/3 : ℚ) ≠ 0 → resolver_pmt (7 : ℚ) 2 (1/3) 0 = .error .div0) ∧
    calcular_fv_com_aportes (100 : ℚ) 6 0 = 0 :=
  C6_zero_periods 5 (1/2) 7 2 (1/3) 100 6

end DiscountDecider

